import Mathlib

/-!
Verification of the data-connector core of `mage_ai/io/base.py`.

The Python source is shallowly embedded: pure functions become Lean
functions, the connection lifecycle becomes explicit state passing on a
state structure, and fallible code returns `Except`.  Each definition is
translated from the source file; collaborators that live outside this
core (`clean_name` from `mage_ai.shared.utils`, `SQL_RESERVED_WORDS` from
`mage_ai.io.constants`, Python's `str.upper`) are modelled from the spec
and marked as such in their doc comments.
-/

namespace Mage

/-- Connector-level failures raised by `mage_ai/io/base.py`:
`UnsupportedFormat` from `FileFormat.from_extension`, `InvalidTarget`
from `BaseFile._write` on an HDF5 stream target, and `NotConnected`
from `BaseSQLConnection.conn`. -/
inductive IOErr where
  | UnsupportedFormat (ext : String)
  | InvalidTarget (msg : String)
  | NotConnected
deriving DecidableEq

/-- The closed `FileFormat` enumeration of `base.py` (lines 45-51). -/
inductive FileFormat where
  | CSV
  | JSON
  | PARQUET
  | HDF5
  | XML
  | EXCEL
deriving DecidableEq

deriving instance DecidableEq for Except

/-- `FileFormat.from_extension` (base.py lines 53-70): an exact string
comparison of the extension against the literals `csv`, `json`,
`parquet`, `hdf5`, `xml`, `xls`, `xlsx`; any other string raises
`ValueError` (modelled as `IOErr.UnsupportedFormat ext`). -/
def FileFormat.from_extension (ext : String) : Except IOErr FileFormat :=
  if ext = "csv" then Except.ok FileFormat.CSV
  else if ext = "json" then Except.ok FileFormat.JSON
  else if ext = "parquet" then Except.ok FileFormat.PARQUET
  else if ext = "hdf5" then Except.ok FileFormat.HDF5
  else if ext = "xml" then Except.ok FileFormat.XML
  else if ext = "xls" ∨ ext = "xlsx" then Except.ok FileFormat.EXCEL
  else Except.error (IOErr.UnsupportedFormat ext)

/-- Python's `str.strip(';')`: drop every leading and trailing `;`
character, matching `query.strip(';')` in `BaseIO._enforce_limit`
(base.py line 101). -/
def stripSemis (s : String) : String :=
  String.mk ((((s.data.dropWhile (fun c => c = ';')).reverse.dropWhile
    (fun c => c = ';')).reverse))

/-- `BaseIO._enforce_limit` (base.py lines 88-111): strip boundary `;`
characters from the query, then wrap it as the named subquery `subquery`
selected with an outer `LIMIT limit`.  The string below reproduces the
f-string template of the source verbatim. -/
def enforce_limit (query : String) (limit : Nat) : String :=
  let q := stripSemis query
  "\nWITH subquery AS (\n    " ++ q ++
    "\n)\n\nSELECT *\nFROM subquery\nLIMIT " ++ toString limit ++ "\n"

/-- `BaseSQLDatabase._clean_query` (base.py lines 331-342): strip
surrounding spaces, newlines and tabs. -/
def clean_query (query_string : String) : String :=
  String.mk ((((query_string.data.dropWhile
    (fun c => c = ' ' ∨ c = '\n' ∨ c = '\t')).reverse.dropWhile
    (fun c => c = ' ' ∨ c = '\n' ∨ c = '\t')).reverse))

/-- The query string built by `BaseSQLDatabase.sample` (base.py line 329):
`f'SELECT * FROM {schema}.{table} LIMIT {str(size)};'`. -/
def sample_query (schema table : String) (size : Nat) : String :=
  "SELECT * FROM " ++ schema ++ "." ++ table ++ " LIMIT " ++
    toString size ++ ";"

/-- `BaseSQLDatabase.sample` (base.py lines 316-329): builds the query and
delegates to the connector's abstract `load`, passed here as a function
argument since `load` is abstract in this class. -/
def sample {α : Type} (load : String → α) (schema table : String)
    (size : Nat) : α :=
  load (sample_query schema table size)

/-- `BaseFile._read` (base.py lines 182-203): invoke the format's reader
on the input and return the resulting data frame unchanged.  The `limit`
parameter is accepted but not used by the source.  A data frame is
modelled as its list of rows; the reader is passed as a function since
the concrete readers are external collaborators. -/
def read {ι α : Type} (reader : ι → List α) (input : ι)
    (limit : Nat) : List α :=
  reader input

/-- `BaseFile.__trim_df` (base.py lines 205-215): `df[:limit]`, a prefix
take of the first `limit` rows. -/
def trim_df {α : Type} (df : List α) (limit : Nat) : List α :=
  df.take limit

/-- The 26 uppercase ASCII letters paired with their lowercase forms,
used to model case folding on identifier characters. -/
def lowerTable : List (Char × Char) :=
  [('A', 'a'), ('B', 'b'), ('C', 'c'), ('D', 'd'), ('E', 'e'), ('F', 'f'),
   ('G', 'g'), ('H', 'h'), ('I', 'i'), ('J', 'j'), ('K', 'k'), ('L', 'l'),
   ('M', 'm'), ('N', 'n'), ('O', 'o'), ('P', 'p'), ('Q', 'q'), ('R', 'r'),
   ('S', 's'), ('T', 't'), ('U', 'u'), ('V', 'v'), ('W', 'w'), ('X', 'x'),
   ('Y', 'y'), ('Z', 'z')]

/-- A character that is already a safe identifier character: a lowercase
ASCII letter, an ASCII digit, or an underscore. -/
def keepChar (c : Char) : Bool :=
  ('a' ≤ c && c ≤ 'z') || ('0' ≤ c && c ≤ '9') || c = '_'

/-- One character of the name-cleaning transform: safe characters are
kept, uppercase letters are case-folded unless `case_sensitive`, and
every other character is normalized to an underscore. -/
def cleanChar (case_sensitive : Bool) (c : Char) : Char :=
  match keepChar c, lowerTable.find? (fun p => p.1 = c) with
  | true, _ => c
  | false, some p => if case_sensitive then c else p.2
  | false, none => '_'

/-- Modelled from the spec: the external name-cleaning collaborator
`clean_name` of `mage_ai.shared.utils` is not part of this core's
source.  Per the spec it applies "case folding unless caseSensitive,
whitespace/punctuation normalization" producing a candidate identifier:
each character is kept if safe, case-folded if an uppercase letter, and
replaced by an underscore otherwise. -/
def clean_name (raw : String) (case_sensitive : Bool) : String :=
  String.mk (raw.data.map (cleanChar case_sensitive))

/-- Case-unfolding of one character: lowercase ASCII letters map to the
uppercase letter, all other characters are unchanged. -/
def upChar (c : Char) : Char :=
  match lowerTable.find? (fun p => p.2 = c) with
  | some p => p.1
  | none => c

/-- Python's `str.upper`, modelled on the ASCII identifier characters the
sanitizer produces: `col_new.upper()` in base.py line 354. -/
def upperStr (s : String) : String :=
  String.mk (s.data.map upChar)

/-- Modelled from the spec: `SQL_RESERVED_WORDS` of `mage_ai.io.constants`
is not part of this core's source.  Per the spec it is "a static set of
uppercase SQL keyword strings"; a representative concrete set is used. -/
def SQL_RESERVED_WORDS : List String :=
  ["ALL", "ALTER", "AND", "AS", "BETWEEN", "BY", "CASE", "CHECK",
   "COLUMN", "CREATE", "CROSS", "DEFAULT", "DELETE", "DISTINCT", "DROP",
   "ELSE", "END", "FOREIGN", "FROM", "FULL", "GROUP", "HAVING", "IN",
   "INDEX", "INNER", "INSERT", "INTO", "IS", "JOIN", "KEY", "LEFT",
   "LIKE", "LIMIT", "NOT", "NULL", "OFFSET", "ON", "OR", "ORDER",
   "OUTER", "PRIMARY", "RIGHT", "SELECT", "SET", "TABLE", "THEN",
   "UNION", "UPDATE", "USER", "VALUES", "VIEW", "WHEN", "WHERE"]

/-- `BaseSQLDatabase._clean_column_name` (base.py lines 344-356): if
`auto_clean_name` is false return the name unchanged; otherwise clean it
with `clean_name`, and if reserved words are not allowed and the
upper-cased candidate is a reserved word, prefix an underscore. -/
def clean_column_name (column_name : String) (allow_reserved_words : Bool)
    (auto_clean_name : Bool) (case_sensitive : Bool) : String :=
  if auto_clean_name = false then column_name
  else
    let col_new := clean_name column_name case_sensitive
    if allow_reserved_words = false ∧ upperStr col_new ∈ SQL_RESERVED_WORDS
    then "_" ++ col_new
    else col_new

/-- A write target of `BaseFile._write`: either an in-memory buffer
(`isinstance(output, IO)` in base.py line 243) or a filesystem path. -/
inductive Output where
  | stream
  | path (p : String)
deriving DecidableEq

/-- The runtime representation of the data frame, branched on by
`BaseFile.__get_writer` (base.py lines 253-292): pandas (row-oriented)
or polars. -/
inductive TableKind where
  | pandas
  | polars
deriving DecidableEq

/-- The keyword arguments of `BaseFile._write` that the source reads or
writes: the HDF5 storage `key`, and the two PARQUET timestamp options.
All other keyword arguments pass through `_write` untouched. -/
structure Kwargs where
  key : Option String
  coerce_timestamps : Option String
  allow_truncated_timestamps : Option Bool
deriving DecidableEq

/-- The single call `writer(output, **kwargs)` performed at the end of
`BaseFile._write` (base.py line 251), recording which writer was
selected and with which arguments. -/
structure WriteCall where
  kind : TableKind
  format : FileFormat
  output : Output
  kwargs : Kwargs
deriving DecidableEq

/-- `os.path.basename`: the suffix of the path after the last `/`. -/
def basename (p : String) : String :=
  String.mk ((p.data.reverse.takeWhile (fun c => ¬ c = '/')).reverse)

/-- The root component of `os.path.splitext` on a basename: cut at the
last `.`, except that a name consisting only of leading dots before that
dot (such as `.bashrc`) has no extension. -/
def splitextRoot (b : String) : String :=
  match b.data.reverse.findIdx? (fun c => c = '.') with
  | none => b
  | some k =>
    let dotIdx := b.data.length - 1 - k
    if (b.data.take dotIdx).any (fun c => ¬ c = '.') then
      String.mk (b.data.take dotIdx)
    else b

/-- `os.path.splitext(os.path.basename(output))[0]` (base.py line 245):
the filename stem, path minus directory and extension. -/
def stem (p : String) : String :=
  splitextRoot (basename p)

/-- `BaseFile._write` (base.py lines 217-251).  `format` defaults to
PARQUET when absent.  For HDF5 a stream target raises `ValueError`
before the writer is invoked (modelled as `Except.error`, so no
`WriteCall` is produced) and the storage `key` defaults to the filename
stem via `kwargs.setdefault`.  For PARQUET with a pandas frame, when
`coerce_timestamps` is not among the kwargs the source sets
`coerce_timestamps = 'ms'` and `allow_truncated_timestamps = True`.
Finally `writer(output, **kwargs)` runs, returned as the `WriteCall`. -/
def write (kind : TableKind) (form : Option FileFormat) (output : Output)
    (kwargs : Kwargs) : Except IOErr WriteCall :=
  let format := form.getD FileFormat.PARQUET
  if format = FileFormat.HDF5 then
    match output with
    | Output.stream =>
      Except.error
        (IOErr.InvalidTarget "Cannot write HDF5 file to buffer of any type.")
    | Output.path p =>
      Except.ok
        ⟨kind, format, output,
          { kwargs with key := some (kwargs.key.getD (stem p)) }⟩
  else if format = FileFormat.PARQUET ∧ kind = TableKind.pandas then
    if kwargs.coerce_timestamps = none then
      Except.ok
        ⟨kind, format, output,
          { kwargs with
              coerce_timestamps := some "ms",
              allow_truncated_timestamps := some true }⟩
    else Except.ok ⟨kind, format, output, kwargs⟩
  else Except.ok ⟨kind, format, output, kwargs⟩

/-- The connection-owning state of a `BaseSQLConnection` (base.py lines
362-431): the optional handle `_ctx` (absent until a concrete `open`
sets it, deleted by `close`) plus the constructor-time `verbose` flag.
The handle type is abstract, as in the source. -/
structure SQLConn (H : Type) where
  ctx : Option H
  verbose : Bool
deriving DecidableEq

/-- `BaseSQLConnection.__init__` (base.py lines 373-379): no `_ctx`
attribute exists on a freshly constructed connection. -/
def initConn (H : Type) (verbose : Bool) : SQLConn H :=
  ⟨none, verbose⟩

/-- Modelled from the spec: `open()` is abstract in this core; per the
spec a "concrete connector establishes `ConnectionHandle`", i.e. sets
`_ctx` to the freshly opened handle. -/
def openConn {H : Type} (s : SQLConn H) (handle : H) : SQLConn H :=
  { s with ctx := some handle }

/-- `BaseSQLConnection.conn` (base.py lines 397-408): return `_ctx` when
it exists; converting the attribute-lookup failure into an explicit
`NotConnected` (`ConnectionError`) when it does not. -/
def conn {H : Type} (s : SQLConn H) : Except IOErr H :=
  match s.ctx with
  | some c => Except.ok c
  | none => Except.error IOErr.NotConnected

/-- `BaseSQLConnection.close` (base.py lines 381-389): if `_ctx` exists,
close it and delete the attribute; otherwise do nothing.  Returns the
new state together with the handle that was released, if any.  (The
verbose-separator print is an output-only side effect with no bearing on
the state.) -/
def close {H : Type} (s : SQLConn H) : SQLConn H × Option H :=
  (⟨none, s.verbose⟩, s.ctx)

/-! Helper lemmas about the name sanitizer. -/

lemma cleanChar_keep {c : Char} (h : keepChar c = true) :
    cleanChar false c = c := by
  unfold cleanChar
  rw [h]

lemma lowerTable_snd_keep : ∀ p ∈ lowerTable, keepChar p.2 = true := by
  decide

lemma keepChar_cleanChar (c : Char) : keepChar (cleanChar false c) = true := by
  cases h : keepChar c with
  | true =>
    rw [cleanChar_keep h]
    exact h
  | false =>
    cases hf : lowerTable.find? (fun p => p.1 = c) with
    | none =>
      unfold cleanChar
      rw [h, hf]
      show keepChar '_' = true
      decide
    | some p =>
      have hp : p ∈ lowerTable := List.mem_of_find?_eq_some hf
      unfold cleanChar
      rw [h, hf]
      exact lowerTable_snd_keep p hp

lemma cleanChar_idem (c : Char) :
    cleanChar false (cleanChar false c) = cleanChar false c :=
  cleanChar_keep (keepChar_cleanChar c)

lemma clean_name_idem (s : String) :
    clean_name (clean_name s false) false = clean_name s false := by
  show String.mk ((s.data.map (cleanChar false)).map (cleanChar false)) = _
  rw [List.map_map]
  congr 1
  apply List.map_congr_left
  intro a _
  exact cleanChar_idem a

lemma mapStr_underscore (f : Char → Char) (hf : f '_' = '_') (s : String) :
    String.mk ((("_" : String) ++ s).data.map f) =
      "_" ++ String.mk (s.data.map f) := by
  rw [String.data_append]
  show String.mk (f '_' :: s.data.map f) = _
  rw [hf]
  rfl

lemma clean_name_underscore (s : String) :
    clean_name ("_" ++ s) false = "_" ++ clean_name s false :=
  mapStr_underscore (cleanChar false) (by decide) s

lemma upperStr_underscore (s : String) :
    upperStr ("_" ++ s) = "_" ++ upperStr s :=
  mapStr_underscore upChar (by decide) s

lemma not_reserved_underscore (s : String) :
    ("_" ++ s) ∉ SQL_RESERVED_WORDS := by
  intro hmem
  have hall : ∀ w ∈ SQL_RESERVED_WORDS, w.data.head? ≠ some '_' := by decide
  apply hall _ hmem
  rw [String.data_append]
  rfl

/-! Claim theorems. -/

/-- C1 (counterexample): the claim says extension resolution is
case-insensitive, so `from_extension "CSV"` should return `CSV`; on the
source's exact string comparison it instead fails `UnsupportedFormat`. -/
theorem from_extension_uppercase_fails :
    FileFormat.from_extension "CSV" =
      Except.error (IOErr.UnsupportedFormat "CSV") ∧
    ¬ FileFormat.from_extension "CSV" = Except.ok FileFormat.CSV := by
  decide

/-- C1 (amended): extension comparison is case-sensitive.  Each of the
seven exact lowercase extension strings maps to its tag (`xls` and
`xlsx` both to EXCEL), and every other string — uppercase variants
included — fails with `UnsupportedFormat` carrying the extension.  The
function is pure (a total Lean function into `Except`). -/
theorem from_extension_cases (ext : String)
    (h : ext ∉ ["csv", "json", "parquet", "hdf5", "xml", "xls", "xlsx"]) :
    FileFormat.from_extension "csv" = Except.ok FileFormat.CSV ∧
    FileFormat.from_extension "json" = Except.ok FileFormat.JSON ∧
    FileFormat.from_extension "parquet" = Except.ok FileFormat.PARQUET ∧
    FileFormat.from_extension "hdf5" = Except.ok FileFormat.HDF5 ∧
    FileFormat.from_extension "xml" = Except.ok FileFormat.XML ∧
    FileFormat.from_extension "xls" = Except.ok FileFormat.EXCEL ∧
    FileFormat.from_extension "xlsx" = Except.ok FileFormat.EXCEL ∧
    FileFormat.from_extension ext =
      Except.error (IOErr.UnsupportedFormat ext) := by
  simp only [List.mem_cons, List.not_mem_nil, or_false, not_or] at h
  obtain ⟨h1, h2, h3, h4, h5, h6, h7⟩ := h
  refine ⟨by decide, by decide, by decide, by decide, by decide, by decide,
    by decide, ?_⟩
  simp [FileFormat.from_extension, h1, h2, h3, h4, h5, h6, h7]

/-- C1 (witness): the amended theorem applied at the concrete
non-lowercase extension `CSV`. -/
theorem from_extension_cases_witness :
    ("CSV" : String) ∉ ["csv", "json", "parquet", "hdf5", "xml", "xls",
      "xlsx"] ∧
    FileFormat.from_extension "CSV" =
      Except.error (IOErr.UnsupportedFormat "CSV") :=
  ⟨by decide, (from_extension_cases "CSV" (by decide)).2.2.2.2.2.2.2⟩

/-- C3 (code evaluated at the failing input): `_read` accepts `limit`
but never applies it — with a reader yielding three rows and `limit = 1`
the load path returns all three rows, while the claim says at most one;
the prefix-take `__trim_df`, which would have produced `[0]`, is never
invoked by `_read`. -/
theorem read_ignores_limit_at_failing_input :
    read (fun (_ : Unit) => [(0 : Nat), 1, 2]) () 1 = [0, 1, 2] ∧
    ¬ (read (fun (_ : Unit) => [(0 : Nat), 1, 2]) () 1).length ≤ 1 ∧
    trim_df [(0 : Nat), 1, 2] 1 = [0] := by
  decide

/-- C4: for every query and positive limit, `enforce_limit` strips the
boundary `;` characters and wraps the stripped query verbatim as the
named subquery `subquery` with the outer clause `LIMIT limit`; on
`SELECT * FROM t;` with limit 5 the inner statement is
`SELECT * FROM t` and the outer clause is `LIMIT 5`. -/
theorem enforce_limit_wraps (query : String) (limit : Nat)
    (h : 0 < limit) :
    enforce_limit query limit =
      "\nWITH subquery AS (\n    " ++ stripSemis query ++
        "\n)\n\nSELECT *\nFROM subquery\nLIMIT " ++ toString limit ++
        "\n" ∧
    stripSemis "SELECT * FROM t;" = "SELECT * FROM t" ∧
    enforce_limit "SELECT * FROM t;" 5 =
      "\nWITH subquery AS (\n    SELECT * FROM t\n)\n\nSELECT *\nFROM subquery\nLIMIT 5\n" :=
  ⟨rfl, by decide, by decide⟩

/-- C4 (witness): the theorem applied at the concrete query of the claim
with limit 5. -/
theorem enforce_limit_wraps_witness :
    0 < 5 ∧
    enforce_limit "SELECT * FROM t;" 5 =
      "\nWITH subquery AS (\n    SELECT * FROM t\n)\n\nSELECT *\nFROM subquery\nLIMIT 5\n" :=
  ⟨by decide, (enforce_limit_wraps "SELECT * FROM t;" 5 (by decide)).2.2⟩

/-- C7: `sample` passes exactly the string
`SELECT * FROM {schema}.{table} LIMIT {size};` to the connector's
`load`; in particular `sample "public" "users" 3` issues exactly
`SELECT * FROM public.users LIMIT 3;`. -/
theorem sample_delegates_exact_query {α : Type} (load : String → α)
    (schema table : String) (size : Nat) :
    sample load schema table size =
      load ("SELECT * FROM " ++ schema ++ "." ++ table ++ " LIMIT " ++
        toString size ++ ";") ∧
    sample_query "public" "users" 3 =
      "SELECT * FROM public.users LIMIT 3;" :=
  ⟨rfl, by decide⟩

/-- C2: `conn` fails `NotConnected` on a freshly constructed connection
(before any `open`), returns exactly the open handle while one exists,
and fails `NotConnected` again after `close`.  The return type
`Except IOErr H` makes a null/undefined result unrepresentable: every
successful return carries the stored handle. -/
theorem conn_lifecycle {H : Type} (s : SQLConn H) (handle : H)
    (verbose : Bool) :
    conn (initConn H verbose) = Except.error IOErr.NotConnected ∧
    conn (openConn s handle) = Except.ok handle ∧
    conn (close s).1 = Except.error IOErr.NotConnected :=
  ⟨rfl, rfl, rfl⟩

/-- C10: `close` releases the handle when one exists (the released
handle is exactly the stored one), leaves no handle afterwards, and is
idempotent — a second `close` is a no-op on the state and releases
nothing.  It is a total function, so it never fails. -/
theorem close_idempotent {H : Type} (s : SQLConn H) :
    (close s).2 = s.ctx ∧
    (close s).1.ctx = none ∧
    close (close s).1 = ((close s).1, none) :=
  ⟨rfl, rfl, rfl⟩

/-- C8: exporting in HDF5 format to a stream target fails
`InvalidTarget` (an `Except.error`, so no `WriteCall` — no write — is
ever produced); on a filesystem path the storage key defaults to the
filename stem when the caller's options carry no key, and a
caller-supplied key is kept.  The stem is the path minus directory and
extension, e.g. `storage/my_dataframe.hdf5` gives `my_dataframe`. -/
theorem write_hdf5_target_rules (kind : TableKind) (kwargs : Kwargs)
    (p : String) :
    write kind (some FileFormat.HDF5) Output.stream kwargs =
      Except.error
        (IOErr.InvalidTarget
          "Cannot write HDF5 file to buffer of any type.") ∧
    write kind (some FileFormat.HDF5) (Output.path p)
        { kwargs with key := none } =
      Except.ok ⟨kind, FileFormat.HDF5, Output.path p,
        { kwargs with key := some (stem p) }⟩ ∧
    (∀ k, write kind (some FileFormat.HDF5) (Output.path p)
        { kwargs with key := some k } =
      Except.ok ⟨kind, FileFormat.HDF5, Output.path p,
        { kwargs with key := some k }⟩) ∧
    stem "storage/my_dataframe.hdf5" = "my_dataframe" :=
  ⟨rfl, rfl, fun _ => rfl, by decide⟩

/-- C9 (counterexample): with a pandas frame in PARQUET format and
caller options that set `allow_truncated_timestamps = false` but leave
`coerce_timestamps` unset, the write call receives
`allow_truncated_timestamps = true` — the caller-set option is
overwritten, contradicting the claim that caller-set options pass
through unchanged. -/
theorem write_parquet_overwrites_caller_option :
    write TableKind.pandas (some FileFormat.PARQUET)
        (Output.path "out.parquet") (Kwargs.mk none none (some false)) =
      Except.ok (WriteCall.mk TableKind.pandas FileFormat.PARQUET
        (Output.path "out.parquet")
        (Kwargs.mk none (some "ms") (some true))) ∧
    ¬ (Kwargs.mk none (some "ms") (some true)).allow_truncated_timestamps
        = some false := by
  decide

/-- C9 (amended): for a pandas frame in PARQUET format, the two defaults
`coerce_timestamps = "ms"` and `allow_truncated_timestamps = true` are
applied exactly when the caller has not set `coerce_timestamps`; in that
case `allow_truncated_timestamps` is set to `true` even if the caller
set it.  When the caller did set `coerce_timestamps`, all options pass
through unchanged. -/
theorem write_parquet_defaults (kwargs : Kwargs) (out : Output) :
    (kwargs.coerce_timestamps = none →
      write TableKind.pandas (some FileFormat.PARQUET) out kwargs =
        Except.ok ⟨TableKind.pandas, FileFormat.PARQUET, out,
          { kwargs with
              coerce_timestamps := some "ms",
              allow_truncated_timestamps := some true }⟩) ∧
    (∀ v, kwargs.coerce_timestamps = some v →
      write TableKind.pandas (some FileFormat.PARQUET) out kwargs =
        Except.ok ⟨TableKind.pandas, FileFormat.PARQUET, out, kwargs⟩) := by
  constructor
  · intro h
    simp [write, h]
  · intro v h
    simp [write, h]

/-- C9 (witness): the amended theorem applied at concrete options with
`coerce_timestamps` unset and `allow_truncated_timestamps = false`. -/
theorem write_parquet_defaults_witness :
    write TableKind.pandas (some FileFormat.PARQUET) (Output.path "x")
        (Kwargs.mk none none (some false)) =
      Except.ok (WriteCall.mk TableKind.pandas FileFormat.PARQUET
        (Output.path "x") (Kwargs.mk none (some "ms") (some true))) :=
  (write_parquet_defaults (Kwargs.mk none none (some false))
    (Output.path "x")).1 rfl

/-- C5: `clean_column_name` with default options is idempotent — also
when the first application prefixed an underscore to escape a reserved
word, since the cleaned candidate is fixed by a second cleaning, a
leading underscore survives cleaning, and no reserved word starts with
an underscore. -/
theorem clean_column_name_idempotent (x : String) :
    clean_column_name (clean_column_name x false true false) false true
        false =
      clean_column_name x false true false := by
  have hx := clean_name_idem x
  by_cases hr : upperStr (clean_name x false) ∈ SQL_RESERVED_WORDS
  · have h1 : clean_column_name x false true false =
        "_" ++ clean_name x false := by
      simp [clean_column_name, hr]
    have h2 : clean_name ("_" ++ clean_name x false) false =
        "_" ++ clean_name x false := by
      rw [clean_name_underscore, hx]
    have h3 : upperStr ("_" ++ clean_name x false) ∉ SQL_RESERVED_WORDS := by
      rw [upperStr_underscore]
      exact not_reserved_underscore _
    rw [h1]
    simp [clean_column_name, h2, h3]
  · have h1 : clean_column_name x false true false = clean_name x false := by
      simp [clean_column_name, hr]
    have hr2 : upperStr (clean_name (clean_name x false) false) ∉
        SQL_RESERVED_WORDS := by
      rw [hx]
      exact hr
    rw [h1]
    simp [clean_column_name, hx, hr2, hr]

/-- C6: for a word whose cleaned candidate upper-cases into the reserved
word set, `clean_column_name` with default options returns the candidate
prefixed with an underscore; with `allow_reserved_words = true` it
returns the unprefixed candidate; and with `auto_clean_name = false` it
returns the input unchanged. -/
theorem clean_column_name_reserved (w : String)
    (h : upperStr (clean_name w false) ∈ SQL_RESERVED_WORDS) :
    clean_column_name w false true false = "_" ++ clean_name w false ∧
    clean_column_name w true true false = clean_name w false ∧
    clean_column_name w false false false = w := by
  refine ⟨by simp [clean_column_name, h], ?_, by simp [clean_column_name]⟩
  simp [clean_column_name]

/-- C6 (witness): the theorem applied at the reserved word `select`. -/
theorem clean_column_name_reserved_witness :
    upperStr (clean_name "select" false) ∈ SQL_RESERVED_WORDS ∧
    clean_column_name "select" false true false =
      "_" ++ clean_name "select" false :=
  ⟨by decide, (clean_column_name_reserved "select" (by decide)).1⟩

end Mage
